import Mathlib

/-
Shallow embedding of the repository (a Django multi-tenant backend) for
specification checking.

Sources embedded below:
  * src/authentication_model.py — the User role/groups bidirectional sync
    implemented with pre_save / post_save / m2m_changed signal receivers.
  * src/auth_model.py — TenantAwareQuerySet.visible_to, per-scope unique
    constraints, foreign-key delete policies (PROTECT / CASCADE / SET_NULL)
    and the FinalizedRFP snapshot record.

Database pks are modelled as Nat.  A many-to-many relation on one user is a
list of pks kept ascending (Django reads it back with order_by pk); the
handler argument pk_set, whose Python iteration order is not specified, is
modelled as the list of pks in the order the caller supplied them, and all
counterexamples below use singleton pk sets so that they do not depend on
that order.
-/

namespace RoleGroupSync

/-- Committed database state of one user row together with its groups
many-to-many rows (src/authentication_model.py, class User: the role
foreign key, lines 46-52, and the inherited groups M2M). -/
structure UserState where
  role : Option Nat
  groups : List Nat
deriving DecidableEq, Repr

/-- Ordered insert keeping the groups list ascending and duplicate-free,
modelling insertion of one through-table row. -/
def insertSorted (x : Nat) : List Nat → List Nat
  | [] => [x]
  | y :: ys =>
    if x < y then x :: y :: ys
    else if x = y then y :: ys
    else y :: insertSorted x ys

/-- The Django signals that the code installs receivers for
(src/authentication_model.py lines 76-105): post_save carries the cached
_desired_role_id (set by _remember_desired_role from the in-memory
instance), m2m_changed carries the in-memory instance role and the pk_set
argument (none models pk_set=None of the clear action; an empty list models
an empty pk_set, which is falsy in Python). -/
inductive Sig where
  | postSave (desired : Option Nat)
  | m2mChanged (instRole : Option Nat) (pkSet : Option (List Nat))
deriving DecidableEq, Repr

/-- The new_role_id computation of _sync_groups_to_role
(src/authentication_model.py lines 98-102):
next(iter(pk_set), None) if pk_set is truthy, else the lowest pk currently
in groups (order_by pk, first; the groups list is kept ascending). -/
def newRoleOf (s : UserState) (pkSet : Option (List Nat)) : Option Nat :=
  match pkSet with
  | some (p :: _) => some p
  | _ => s.groups.head?

/-- Body of _sync_groups_to_role (src/authentication_model.py lines 93-105)
for a post_add / post_remove / post_clear action: compare the candidate
against the IN-MEMORY instance role and, when different, write the role
column with a queryset update that bypasses all signals. -/
def applyM2m (s : UserState) (instRole : Option Nat) (pkSet : Option (List Nat)) :
    UserState :=
  let n := newRoleOf s pkSet
  if instRole = n then s else { s with role := n }

/-- Body of _sync_role_to_groups (src/authentication_model.py lines 83-89)
when the cached desired role is some r: instance.groups.set([r]).
Django set() removes the through rows for groups other than r (firing
post_remove with that pk set when non-empty) and then inserts r when it was
absent (firing post_add with pk set [r]).  The handlers run synchronously
and compare against the in-memory instance role, which is r throughout. -/
def applyPostSave (s : UserState) (r : Nat) : UserState :=
  let removed := s.groups.filter (fun g => decide (g ≠ r))
  let hadR := decide (r ∈ s.groups)
  let s1 : UserState := { s with groups := s.groups.filter (fun g => decide (g = r)) }
  let s2 := if removed.isEmpty then s1 else applyM2m s1 (some r) (some removed)
  let s3 : UserState := { s2 with groups := insertSorted r s2.groups }
  if hadR then s3 else applyM2m s3 (some r) (some [r])

/-- Fueled synchronous signal dispatcher.  Each signal delivery consumes one
unit of fuel; none models a dispatch chain longer than the fuel, so a
mutual-recursion loop between the two receivers would show up as none for
every finite fuel.  The m2mChanged branch performs the queryset update of
line 105, which sends no further signals, hence dispatches nothing. -/
def dispatch : Nat → UserState → Sig → Option UserState
  | 0, _, _ => none
  | _ + 1, s, Sig.m2mChanged instRole pkSet => some (applyM2m s instRole pkSet)
  | _ + 1, s, Sig.postSave none => some s
  | fuel + 1, s, Sig.postSave (some r) =>
    let removed := s.groups.filter (fun g => decide (g ≠ r))
    let hadR := decide (r ∈ s.groups)
    let s1 : UserState := { s with groups := s.groups.filter (fun g => decide (g = r)) }
    (if removed.isEmpty then some s1
     else dispatch fuel s1 (Sig.m2mChanged (some r) (some removed))).bind
      (fun s2 =>
        let s3 : UserState := { s2 with groups := insertSorted r s2.groups }
        if hadR then some s3
        else dispatch fuel s3 (Sig.m2mChanged (some r) (some [r])))

/-- Exposed operation: assign the role field on the instance and save.
The save writes the role column, pre_save caches the desired role, and
post_save runs _sync_role_to_groups.  Note the early return of line 86-87:
when the cached desired role is None the receiver returns without touching
groups, so the expression [rid] if rid else [] never clears them. -/
def saveUser (s : UserState) (newRole : Option Nat) : UserState :=
  let s0 : UserState := { s with role := newRole }
  match newRole with
  | none => s0
  | some r => applyPostSave s0 r

/-- saveUser run through the fueled dispatcher. -/
def saveUserF (fuel : Nat) (s : UserState) (newRole : Option Nat) : Option UserState :=
  dispatch fuel { s with role := newRole } (Sig.postSave newRole)

/-- Exposed operation: user.groups.add(*pks).  Django inserts the missing
pks and fires post_add with exactly that (possibly empty, hence falsy)
pk set; with no arguments it fires nothing. -/
def addGroups (s : UserState) (pks : List Nat) : UserState :=
  if pks.isEmpty then s
  else
    let newIds := pks.filter (fun p => decide (p ∉ s.groups))
    let s1 : UserState := { s with groups := newIds.foldl (fun g x => insertSorted x g) s.groups }
    applyM2m s1 s.role (some newIds)

/-- addGroups run through the fueled dispatcher. -/
def addGroupsF (fuel : Nat) (s : UserState) (pks : List Nat) : Option UserState :=
  if pks.isEmpty then some s
  else
    let newIds := pks.filter (fun p => decide (p ∉ s.groups))
    let s1 : UserState := { s with groups := newIds.foldl (fun g x => insertSorted x g) s.groups }
    dispatch fuel s1 (Sig.m2mChanged s.role (some newIds))

/-- Exposed operation: user.groups.remove(*pks).  Django deletes the
matching through rows and fires post_remove with the full requested pk set;
with no arguments it fires nothing. -/
def removeGroups (s : UserState) (pks : List Nat) : UserState :=
  if pks.isEmpty then s
  else
    let s1 : UserState := { s with groups := s.groups.filter (fun g => decide (g ∉ pks)) }
    applyM2m s1 s.role (some pks)

/-- removeGroups run through the fueled dispatcher. -/
def removeGroupsF (fuel : Nat) (s : UserState) (pks : List Nat) : Option UserState :=
  if pks.isEmpty then some s
  else
    let s1 : UserState := { s with groups := s.groups.filter (fun g => decide (g ∉ pks)) }
    dispatch fuel s1 (Sig.m2mChanged s.role (some pks))

/-- Exposed operation: user.groups.clear().  Django deletes every through
row and fires post_clear with pk_set=None. -/
def clearGroups (s : UserState) : UserState :=
  applyM2m { s with groups := [] } s.role none

/-- clearGroups run through the fueled dispatcher. -/
def clearGroupsF (fuel : Nat) (s : UserState) : Option UserState :=
  dispatch fuel { s with groups := [] } (Sig.m2mChanged s.role none)

/-- The committed-state invariant of the spec: the role is null or one of
the groups. -/
def invariantHolds (s : UserState) : Bool :=
  match s.role with
  | none => true
  | some r => decide (r ∈ s.groups)

end RoleGroupSync

namespace TenantVisibility

/-- An ownership-scoped row (src/auth_model.py, TenantOwnedMixin lines
11-31 for the nullable organization, OrgVisibilityMixin lines 34-47 for the
blocked_for many-to-many).  A type without the block-list mixin simply
never populates blockedFor and is queried with hasBlocked = false. -/
structure Row where
  organization : Option Nat
  blockedFor : List Nat
deriving DecidableEq, Repr

/-- TenantAwareQuerySet.visible_to (src/auth_model.py lines 50-63).
hasBlocked models hasattr(self.model, "blocked_for").  Step 1 filters on
organization.  Step 2 is qs.exclude(blocked_for=org): for a non-null org
the Django ORM excludes every row that has org among its blocked_for rows;
for org=None the lookup blocked_for=None means "has no blocked_for rows",
so the exclude keeps exactly the rows that have at least one blocked_for
entry. -/
def visible_to (hasBlocked : Bool) (rows : List Row) (org : Option Nat) : List Row :=
  let qs := match org with
    | none => rows.filter (fun r => decide (r.organization = none))
    | some o => rows.filter (fun r => decide (r.organization = none ∨ r.organization = some o))
  if hasBlocked then
    match org with
    | some o => qs.filter (fun r => decide (o ∉ r.blockedFor))
    | none => qs.filter (fun r => ¬ r.blockedFor.isEmpty)
  else qs

end TenantVisibility

namespace ScopeUnique

/-- Outcome of inserting a row under the per-scope unique constraint. -/
inductive InsertResult where
  | ok
  | duplicateInScope
deriving DecidableEq, Repr

/-- Whether an existing (organization, name) pair conflicts with the
incoming one under the declared constraint
UniqueConstraint(fields=[ "organization", "name" ]) of src/auth_model.py
lines 84-88 (Industry) and 100-104 (Service), executed by the relational
store as an SQL UNIQUE index: two rows conflict when both columns are
equal and NOT NULL — SQL treats NULL organization values as distinct, so
two rows in the global scope never conflict. -/
def conflicts (o : Option Nat) (n : String) (row : Option Nat × String) : Bool :=
  decide (row.2 = n) && decide (row.1 = o) && o.isSome

/-- Insert a row with the given organization scope and natural key into a
table with the given existing rows. -/
def insertRow (existing : List (Option Nat × String)) (o : Option Nat) (n : String) :
    InsertResult :=
  if existing.any (conflicts o n) then InsertResult.duplicateInScope else InsertResult.ok

end ScopeUnique

namespace DeletePolicy

/-- A proposal join row (src/auth_model.py: ProjectGeneratedRFPService
lines 166-182, ProjectGeneratedRFPBusinessCycle lines 185-201,
ProjectGeneratedRFPArea lines 265-291).  All three have the same delete
policy shape: generated_rfp is on_delete=CASCADE, the catalogue-side
foreign key (service / business_cycle / area) is on_delete=PROTECT; target
stands for that catalogue-side pk. -/
structure JoinRow where
  generated_rfp : Nat
  target : Nat
deriving DecidableEq, Repr

/-- The protect-on-delete failure. -/
inductive DeleteError where
  | referencedRowProtected
deriving DecidableEq, Repr

/-- Delete a catalogue row (a service, business cycle or functional area):
the store refuses while any join row references it (PROTECT) and otherwise
removes it. -/
def deleteCatalogueRow (joins : List JoinRow) (catalogue : List Nat) (t : Nat) :
    Except DeleteError (List Nat) :=
  if joins.any (fun j => decide (j.target = t)) then
    Except.error DeleteError.referencedRowProtected
  else
    Except.ok (catalogue.filter (fun c => decide (c ≠ t)))

/-- Delete a GeneratedRFP row: its join rows cascade away with it
(generated_rfp is on_delete=CASCADE on all three join models). -/
def deleteRFP (joins : List JoinRow) (rfps : List Nat) (p : Nat) :
    List JoinRow × List Nat :=
  (joins.filter (fun j => decide (j.generated_rfp ≠ p)),
   rfps.filter (fun q => decide (q ≠ p)))

end DeletePolicy

namespace UserDeletion

/-- A catalogue row carrying the TenantOwnedMixin creator reference
(src/auth_model.py lines 22-28): user is on_delete=SET_NULL. -/
structure CatalogueRow where
  id : Nat
  organization : Option Nat
  user : Option Nat
  name : String
deriving DecidableEq, Repr

/-- A GeneratedRFP row (src/auth_model.py lines 220-224): its user foreign
key is on_delete=CASCADE, so the row itself is collected when the user is
deleted. -/
structure RFPRow where
  id : Nat
  user : Nat
  rfp_name : String
deriving DecidableEq, Repr

/-- Delete a user: the store applies SET_NULL to the TenantOwnedMixin
creator references and CASCADE to the GeneratedRFP rows of that user. -/
def deleteUser (catalogue : List CatalogueRow) (rfps : List RFPRow) (u : Nat) :
    List CatalogueRow × List RFPRow :=
  (catalogue.map (fun r => if r.user = some u then { r with user := none } else r),
   rfps.filter (fun r => decide (r.user ≠ u)))

end UserDeletion

namespace Snapshot

/-- The content of a GeneratedRFP that the snapshot copies
(src/auth_model.py lines 204-251: industry, the services /
business_cycles / areas relations with the priority tag, and the
questionnaires / descriptions JSON lists). -/
structure RFPContent where
  rfp_name : String
  industry : Nat
  services : List Nat
  business_cycles : List Nat
  area_priorities : List (Nat × String)
  questionnaires : List String
  descriptions : List String
deriving DecidableEq, Repr

/-- A GeneratedRFP record: mutable aggregate with an optional owning
organization (src/auth_model.py lines 204-219). -/
structure GeneratedRFPRec where
  id : Nat
  organization : Option Nat
  content : RFPContent
deriving DecidableEq, Repr

/-- A FinalizedRFP record (src/auth_model.py lines 323-347): source_rfp is
a nullable reference to the GeneratedRFP, organization is required, and
snapshot_data holds the self-contained copied content of the source. -/
structure FinalizedRFPRec where
  id : Nat
  source_rfp : Option Nat
  organization : Nat
  snapshot_data : RFPContent
deriving DecidableEq, Repr

/-- The relational store restricted to the two tables this claim needs. -/
structure Store where
  rfps : List GeneratedRFPRec
  finalized : List FinalizedRFPRec
  nextFinId : Nat
deriving DecidableEq, Repr

/-- Failures of finalize. -/
inductive FinalizeError where
  | missingOwner
  | notFound
deriving DecidableEq, Repr

/-- Modelled from the spec: the finalize operation itself is not under
src/ (only the FinalizedRFP model declaration is).  Following section 4.4
of the spec, finalize requires the source proposal to have a determinate
organization (otherwise MissingOwnerError), builds a self-contained
structured copy of the proposal content into snapshot_data on a new
FinalizedRFP record, and sets organization and source_rfp to the
originals.  Returns the new store and the id of the created record. -/
def finalize (st : Store) (pid : Nat) : Except FinalizeError (Store × Nat) :=
  match st.rfps.find? (fun p => decide (p.id = pid)) with
  | none => Except.error FinalizeError.notFound
  | some p =>
    match p.organization with
    | none => Except.error FinalizeError.missingOwner
    | some org =>
      let fin : FinalizedRFPRec :=
        { id := st.nextFinId, source_rfp := some pid, organization := org,
          snapshot_data := p.content }
      Except.ok
        ({ st with finalized := st.finalized ++ [fin], nextFinId := st.nextFinId + 1 },
         st.nextFinId)

/-- Mutate the services list of a GeneratedRFP in place (the later
mutation of the source that the claim quantifies over). -/
def setServices (st : Store) (pid : Nat) (svcs : List Nat) : Store :=
  { st with
    rfps := st.rfps.map (fun p =>
      if p.id = pid then { p with content := { p.content with services := svcs } } else p) }

end Snapshot

-- ──────────────────────────────────────────────────────────────
-- Helper lemmas
-- ──────────────────────────────────────────────────────────────

theorem RoleGroupSync.mem_insertSorted {y x : Nat} {l : List Nat} :
    y ∈ RoleGroupSync.insertSorted x l ↔ y = x ∨ y ∈ l := by
  induction l with
  | nil => simp [RoleGroupSync.insertSorted]
  | cons z zs ih =>
    unfold RoleGroupSync.insertSorted
    by_cases h1 : x < z
    · simp [h1]
    · by_cases h2 : x = z
      · subst h2
        simp [h1]
      · simp [h1, h2, ih]
        tauto

theorem RoleGroupSync.mem_foldl_insertSorted {y : Nat} (xs g0 : List Nat) :
    y ∈ xs.foldl (fun g x => RoleGroupSync.insertSorted x g) g0 ↔ y ∈ g0 ∨ y ∈ xs := by
  induction xs generalizing g0 with
  | nil => simp
  | cons x xs ih =>
    simp only [List.foldl_cons, ih, RoleGroupSync.mem_insertSorted, List.mem_cons]
    tauto

theorem RoleGroupSync.invariantHolds_iff (s : RoleGroupSync.UserState) :
    RoleGroupSync.invariantHolds s = true ↔ ∀ r, s.role = some r → r ∈ s.groups := by
  cases hr : s.role <;> simp [RoleGroupSync.invariantHolds, hr]

theorem RoleGroupSync.invariantHolds_applyM2m (s : RoleGroupSync.UserState)
    (instRole : Option Nat) (pkSet : Option (List Nat))
    (h : RoleGroupSync.invariantHolds s = true)
    (hq : ∀ p ps, pkSet = some (p :: ps) → p ∈ s.groups) :
    RoleGroupSync.invariantHolds (RoleGroupSync.applyM2m s instRole pkSet) = true := by
  unfold RoleGroupSync.applyM2m
  dsimp only
  split
  · exact h
  · rw [RoleGroupSync.invariantHolds_iff]
    intro r hr
    simp only at hr ⊢
    rcases hpk : pkSet with _ | l
    · subst hpk
      simp only [RoleGroupSync.newRoleOf] at hr
      exact List.mem_of_mem_head? (hr ▸ Option.mem_def.mpr rfl)
    · rcases l with _ | ⟨p, ps⟩
      · subst hpk
        simp only [RoleGroupSync.newRoleOf] at hr
        exact List.mem_of_mem_head? (hr ▸ Option.mem_def.mpr rfl)
      · subst hpk
        simp only [RoleGroupSync.newRoleOf] at hr
        have hp := hq p ps rfl
        injection hr with hr
        rwa [hr] at hp

-- ──────────────────────────────────────────────────────────────
-- Claims
-- ──────────────────────────────────────────────────────────────

/-- C1, counterexample: the state with role 1 and groups {1, 2} satisfies
the invariant, but removing group 2 leaves the committed state with
role 2 and groups {1}: _sync_groups_to_role promotes the just-removed pk
(the head of pk_set of the post_remove action) to the role column, so the
role is no longer an element of the groups set. -/
theorem C1_counterexample :
    RoleGroupSync.invariantHolds ⟨some 1, [1, 2]⟩ = true ∧
    RoleGroupSync.removeGroups ⟨some 1, [1, 2]⟩ [2] = ⟨some 2, [1]⟩ ∧
    RoleGroupSync.invariantHolds (RoleGroupSync.removeGroups ⟨some 1, [1, 2]⟩ [2]) = false := by
  decide

/-- C1, amended: from a committed state satisfying the invariant
(role null or a member of groups), the invariant is preserved by adding
group elements, by clearing the groups, by persisting a cleared role, and
by persisting a role change when every prior group equals the new role;
removing group elements, and persisting a role change while other groups
are present, can instead promote a just-removed pk to the role column and
break the invariant (see the counterexample). -/
theorem C1_amended (s : RoleGroupSync.UserState)
    (h : RoleGroupSync.invariantHolds s = true) :
    (∀ pks, RoleGroupSync.invariantHolds (RoleGroupSync.addGroups s pks) = true) ∧
    RoleGroupSync.invariantHolds (RoleGroupSync.clearGroups s) = true ∧
    RoleGroupSync.invariantHolds (RoleGroupSync.saveUser s none) = true ∧
    (∀ r, (∀ g ∈ s.groups, g = r) →
      RoleGroupSync.invariantHolds (RoleGroupSync.saveUser s (some r)) = true) := by
  refine ⟨?_, ?_, ?_, ?_⟩
  · intro pks
    unfold RoleGroupSync.addGroups
    split
    · exact h
    · apply RoleGroupSync.invariantHolds_applyM2m
      · rw [RoleGroupSync.invariantHolds_iff] at h ⊢
        intro r hr
        simp only at hr ⊢
        rw [RoleGroupSync.mem_foldl_insertSorted]
        exact Or.inl (h r hr)
      · intro p ps hps
        simp only at hps ⊢
        injection hps with hps
        rw [RoleGroupSync.mem_foldl_insertSorted]
        exact Or.inr (hps ▸ List.mem_cons_self p ps)
  · unfold RoleGroupSync.clearGroups RoleGroupSync.applyM2m RoleGroupSync.newRoleOf
    simp only [List.head?_nil]
    split
    · next heq => rw [RoleGroupSync.invariantHolds_iff]; intro r hr; simp_all
    · rw [RoleGroupSync.invariantHolds_iff]; intro r hr; simp_all
  · unfold RoleGroupSync.saveUser
    rw [RoleGroupSync.invariantHolds_iff]
    intro r hr
    simp at hr
  · intro r hall
    unfold RoleGroupSync.saveUser RoleGroupSync.applyPostSave
    simp only
    have hrem : (s.groups.filter (fun g => decide (g ≠ r))).isEmpty = true := by
      rw [List.isEmpty_iff, List.filter_eq_nil_iff]
      intro a ha
      simp [hall a ha]
    rw [if_pos hrem]
    by_cases hadR : r ∈ s.groups
    · rw [if_pos (by simpa using hadR)]
      rw [RoleGroupSync.invariantHolds_iff]
      intro q hq
      simp only at hq ⊢
      cases hq
      exact RoleGroupSync.mem_insertSorted.mpr (Or.inl rfl)
    · rw [if_neg (by simpa using hadR)]
      unfold RoleGroupSync.applyM2m RoleGroupSync.newRoleOf
      dsimp only
      rw [if_pos rfl]
      rw [RoleGroupSync.invariantHolds_iff]
      intro q hq
      simp only at hq ⊢
      cases hq
      exact RoleGroupSync.mem_insertSorted.mpr (Or.inl rfl)

/-- C1, witness for the amended theorem at the concrete state with role 1
and groups {1}: adding group 2 keeps the invariant. -/
theorem C1_witness :
    RoleGroupSync.invariantHolds ⟨some 1, [1]⟩ = true ∧
    RoleGroupSync.invariantHolds (RoleGroupSync.addGroups ⟨some 1, [1]⟩ [2]) = true :=
  ⟨by decide, (C1_amended ⟨some 1, [1]⟩ (by decide)).1 [2]⟩

/-- C2: persisting a user whose role field was set to null leaves the
groups set untouched instead of clearing it — _sync_role_to_groups returns
early when the cached desired role id is None (lines 86-87 of
src/authentication_model.py), so its own clearing expression
[rid] if rid else [] is dead code and the claimed full replace by the
empty set never happens.  At the failing input (role 1, groups {1}; set
role to null and save) the committed groups set stays {1}. -/
theorem C2_code_behavior :
    RoleGroupSync.saveUser ⟨some 1, [1]⟩ none = ⟨none, [1]⟩ ∧
    (RoleGroupSync.saveUser ⟨some 1, [1]⟩ none).groups ≠ [] ∧
    RoleGroupSync.saveUser ⟨none, []⟩ (some 3) = ⟨some 3, [3]⟩ := by
  decide

/-- C9: clearing the groups set (the post_clear action, pk_set=None)
recomputes the role from the now-empty groups relation and writes null,
so after the operation commits the role is null, for every starting
state. -/
theorem C9_clear_groups_nulls_role (s : RoleGroupSync.UserState) :
    (RoleGroupSync.clearGroups s).role = none := by
  unfold RoleGroupSync.clearGroups RoleGroupSync.applyM2m RoleGroupSync.newRoleOf
  simp only [List.head?_nil]
  split
  · next heq => simpa using heq
  · rfl

/-- C3, counterexample: a row owned by organization 1 that lists
organization 1 in its own block list is not returned by
visible_to(collection, 1), although the claim states that all rows owned
by the viewing organization are returned: qs.exclude(blocked_for=org) at
line 62 of src/auth_model.py is applied to the whole queryset, owned rows
included, not only to global rows. -/
theorem C3_counterexample :
    (⟨some 1, [1]⟩ : TenantVisibility.Row).organization = some 1 ∧
    TenantVisibility.visible_to true [⟨some 1, [1]⟩] (some 1) = [] := by
  decide

/-- C3, amended: for a non-null viewing organization O, a row is returned
exactly when it is in the collection, is global or owned by O, and — for a
block-list-capable type — does not list O in its block list; so the
block-list exclusion also suppresses an O-owned row that lists O itself,
while a row owned by a different organization is never returned (its
membership in the right-hand side fails the ownership disjunct). -/
theorem C3_amended (rows : List TenantVisibility.Row) (o : Nat) (r : TenantVisibility.Row) :
    (r ∈ TenantVisibility.visible_to true rows (some o) ↔
      r ∈ rows ∧ (r.organization = none ∨ r.organization = some o) ∧ o ∉ r.blockedFor) ∧
    (r ∈ TenantVisibility.visible_to false rows (some o) ↔
      r ∈ rows ∧ (r.organization = none ∨ r.organization = some o)) := by
  constructor
  · simp only [TenantVisibility.visible_to, List.mem_filter, decide_eq_true_eq, if_pos]
    tauto
  · simp [TenantVisibility.visible_to, List.mem_filter]

/-- C3, witness for the amended theorem at a concrete collection: a global
row block-listing organization 2 only, viewed by organization 1. -/
theorem C3_witness :
    ((⟨none, [2]⟩ : TenantVisibility.Row) ∈
        TenantVisibility.visible_to true [⟨none, [2]⟩] (some 1) ↔
      (⟨none, [2]⟩ : TenantVisibility.Row) ∈ [(⟨none, [2]⟩ : TenantVisibility.Row)] ∧
      ((⟨none, [2]⟩ : TenantVisibility.Row).organization = none ∨
        (⟨none, [2]⟩ : TenantVisibility.Row).organization = some 1) ∧
      1 ∉ (⟨none, [2]⟩ : TenantVisibility.Row).blockedFor) ∧
    ((⟨none, [2]⟩ : TenantVisibility.Row) ∈
        TenantVisibility.visible_to false [⟨none, [2]⟩] (some 1) ↔
      (⟨none, [2]⟩ : TenantVisibility.Row) ∈ [(⟨none, [2]⟩ : TenantVisibility.Row)] ∧
      ((⟨none, [2]⟩ : TenantVisibility.Row).organization = none ∨
        (⟨none, [2]⟩ : TenantVisibility.Row).organization = some 1)) :=
  C3_amended [⟨none, [2]⟩] 1 ⟨none, [2]⟩

/-- C4: for a block-list-capable type the block-list check is NOT skipped
when the viewing organization is null.  The hasattr branch of visible_to
(src/auth_model.py lines 61-62) runs qs.exclude(blocked_for=None), and the
ORM lookup blocked_for=None means "has no block-list rows", so the exclude
keeps only the global rows that have at least one block-list entry.  At
the failing input — one global row with an empty block list, viewed with
org=None — the code returns the empty list while the claim says the row is
returned; a global row with a block-list entry is returned instead, and a
type without the block-list capability behaves as claimed. -/
theorem C4_code_behavior :
    TenantVisibility.visible_to true [⟨none, []⟩] none = [] ∧
    TenantVisibility.visible_to true [⟨none, [2]⟩] none = [⟨none, [2]⟩] ∧
    TenantVisibility.visible_to false [⟨none, []⟩] none = [⟨none, []⟩] := by
  decide

/-- C5, counterexample: two rows with the same natural key both in the
global (null-organization) scope do not conflict — the declared
UniqueConstraint over (organization, name) is executed by the store as an
SQL UNIQUE index, and SQL treats two NULL organization values as distinct,
so the second insert succeeds instead of failing with
DuplicateInScopeError. -/
theorem C5_counterexample :
    ScopeUnique.insertRow [(none, "alpha")] none "alpha" = ScopeUnique.InsertResult.ok := by
  decide

/-- C5, amended: an insert fails with the duplicate-in-scope error exactly
when the organization scope is non-null and a row with the same
(organization, name) pair already exists; inserts into different scopes,
and any insert into the global scope, succeed. -/
theorem C5_amended (existing : List (Option Nat × String)) (o : Option Nat) (n : String) :
    ScopeUnique.insertRow existing o n = ScopeUnique.InsertResult.duplicateInScope ↔
      o.isSome = true ∧ (o, n) ∈ existing := by
  have hiff : existing.any (ScopeUnique.conflicts o n) = true ↔
      o.isSome = true ∧ (o, n) ∈ existing := by
    rw [List.any_eq_true]
    constructor
    · rintro ⟨⟨ro, rn⟩, hmem, hc⟩
      simp only [ScopeUnique.conflicts, Bool.and_eq_true, decide_eq_true_eq] at hc
      obtain ⟨⟨h1, h2⟩, h3⟩ := hc
      subst h1
      subst h2
      exact ⟨h3, hmem⟩
    · rintro ⟨hs, hmem⟩
      refine ⟨(o, n), hmem, ?_⟩
      simp [ScopeUnique.conflicts, hs]
  unfold ScopeUnique.insertRow
  by_cases hany : existing.any (ScopeUnique.conflicts o n) = true
  · rw [if_pos hany]
    exact ⟨fun _ => hiff.mp hany, fun _ => rfl⟩
  · rw [if_neg hany]
    constructor
    · intro hcon
      exact absurd hcon (by decide)
    · intro hrhs
      exact absurd (hiff.mpr hrhs) hany

/-- C5, witness for the amended theorem: a duplicate inside the concrete
non-null scope of organization 1 is rejected. -/
theorem C5_witness :
    ScopeUnique.insertRow [(some 1, "alpha")] (some 1) "alpha" =
      ScopeUnique.InsertResult.duplicateInScope :=
  (C5_amended [(some 1, "alpha")] (some 1) "alpha").mpr ⟨rfl, by decide⟩

theorem RoleGroupSync.dispatch_m2m (fuel : Nat) (s : RoleGroupSync.UserState)
    (instRole : Option Nat) (pkSet : Option (List Nat)) :
    RoleGroupSync.dispatch (fuel + 1) s (RoleGroupSync.Sig.m2mChanged instRole pkSet) =
      some (RoleGroupSync.applyM2m s instRole pkSet) := rfl

theorem RoleGroupSync.dispatch_postSave (fuel : Nat) (s : RoleGroupSync.UserState)
    (desired : Option Nat) :
    RoleGroupSync.dispatch (fuel + 2) s (RoleGroupSync.Sig.postSave desired) =
      some (match desired with
        | none => s
        | some r => RoleGroupSync.applyPostSave s r) := by
  cases desired with
  | none => rfl
  | some r =>
    show RoleGroupSync.dispatch (fuel + 1 + 1) s (RoleGroupSync.Sig.postSave (some r)) =
      some (RoleGroupSync.applyPostSave s r)
    unfold RoleGroupSync.dispatch
    simp only [RoleGroupSync.dispatch_m2m]
    unfold RoleGroupSync.applyPostSave
    dsimp only
    split <;> (simp only [Option.some_bind]; split <;> rfl)

/-- C6: every exposed role or groups operation finishes within a fixed
number of synchronous signal deliveries — fuel 2 (one post_save plus at
most one nested m2m_changed delivery, or one m2m_changed delivery alone)
already makes the fueled dispatcher return a committed state, equal to the
one the direct functions compute, for every starting state.  The reason is
visible in the m2mChanged branch of dispatch: the role write of
_sync_groups_to_role is the signal-bypassing queryset update of line 105
of src/authentication_model.py, so it dispatches nothing and the two
receivers never re-trigger each other. -/
theorem C6_sync_terminates (fuel : Nat) (hfuel : 2 ≤ fuel) (s : RoleGroupSync.UserState)
    (newRole : Option Nat) (pks : List Nat) :
    RoleGroupSync.saveUserF fuel s newRole = some (RoleGroupSync.saveUser s newRole) ∧
    RoleGroupSync.addGroupsF fuel s pks = some (RoleGroupSync.addGroups s pks) ∧
    RoleGroupSync.removeGroupsF fuel s pks = some (RoleGroupSync.removeGroups s pks) ∧
    RoleGroupSync.clearGroupsF fuel s = some (RoleGroupSync.clearGroups s) := by
  obtain ⟨k, rfl⟩ : ∃ k, fuel = k + 2 := ⟨fuel - 2, by omega⟩
  refine ⟨?_, ?_, ?_, ?_⟩
  · unfold RoleGroupSync.saveUserF RoleGroupSync.saveUser
    rw [RoleGroupSync.dispatch_postSave]
  · unfold RoleGroupSync.addGroupsF RoleGroupSync.addGroups
    dsimp only
    by_cases hp : pks.isEmpty = true
    · rw [if_pos hp, if_pos hp]
    · rw [if_neg hp, if_neg hp]
      exact RoleGroupSync.dispatch_m2m (k + 1) _ _ _
  · unfold RoleGroupSync.removeGroupsF RoleGroupSync.removeGroups
    dsimp only
    by_cases hp : pks.isEmpty = true
    · rw [if_pos hp, if_pos hp]
    · rw [if_neg hp, if_neg hp]
      exact RoleGroupSync.dispatch_m2m (k + 1) _ _ _
  · exact RoleGroupSync.dispatch_m2m (k + 1) _ _ _

/-- C6, witness: fuel 2 suffices at a concrete state and role change. -/
theorem C6_witness :
    2 ≤ 2 ∧
    RoleGroupSync.saveUserF 2 ⟨some 1, [1]⟩ (some 2) =
      some (RoleGroupSync.saveUser ⟨some 1, [1]⟩ (some 2)) :=
  ⟨by decide, (C6_sync_terminates 2 (by decide) ⟨some 1, [1]⟩ (some 2) []).1⟩

/-- C7: finalize copies the source proposal content by value into
snapshot_data of the new FinalizedRFP record, so the created record holds
exactly the content the source had at call time, and a later mutation of
the source services list (setServices) leaves the whole finalized table —
hence every previously created snapshot — unchanged. -/
theorem C7_snapshot_immutable (st : Snapshot.Store) (pid : Nat) (svcs : List Nat)
    (st2 : Snapshot.Store) (fid : Nat) (p : Snapshot.GeneratedRFPRec)
    (hfin : Snapshot.finalize st pid = Except.ok (st2, fid))
    (hfind : st.rfps.find? (fun q => decide (q.id = pid)) = some p) :
    (∃ f, f ∈ st2.finalized ∧ f.id = fid ∧ f.source_rfp = some pid ∧
      f.snapshot_data = p.content) ∧
    (Snapshot.setServices st2 pid svcs).finalized = st2.finalized := by
  constructor
  · unfold Snapshot.finalize at hfin
    rw [hfind] at hfin
    dsimp only at hfin
    cases horg : p.organization with
    | none =>
      rw [horg] at hfin
      exact absurd hfin (by simp)
    | some org =>
      rw [horg] at hfin
      simp only [Except.ok.injEq, Prod.mk.injEq] at hfin
      obtain ⟨hst, hfid⟩ := hfin
      subst hst
      subst hfid
      refine ⟨⟨st.nextFinId, some pid, org, p.content⟩, ?_, rfl, rfl, rfl⟩
      simp [List.mem_append]
  · rfl

/-- C7, witness at a one-proposal store owned by organization 5. -/
theorem C7_witness :
    Snapshot.finalize ⟨[⟨1, some 5, ⟨"p", 9, [1], [], [], [], []⟩⟩], [], 0⟩ 1 =
      Except.ok (⟨[⟨1, some 5, ⟨"p", 9, [1], [], [], [], []⟩⟩],
        [⟨0, some 1, 5, ⟨"p", 9, [1], [], [], [], []⟩⟩], 1⟩, 0) ∧
    ((∃ f, f ∈ (⟨[⟨1, some 5, ⟨"p", 9, [1], [], [], [], []⟩⟩],
          [⟨0, some 1, 5, ⟨"p", 9, [1], [], [], [], []⟩⟩], 1⟩ : Snapshot.Store).finalized ∧
        f.id = 0 ∧ f.source_rfp = some 1 ∧
        f.snapshot_data = (⟨1, some 5, ⟨"p", 9, [1], [], [], [], []⟩⟩ :
          Snapshot.GeneratedRFPRec).content) ∧
      (Snapshot.setServices ⟨[⟨1, some 5, ⟨"p", 9, [1], [], [], [], []⟩⟩],
          [⟨0, some 1, 5, ⟨"p", 9, [1], [], [], [], []⟩⟩], 1⟩ 1 [4, 5]).finalized =
        (⟨[⟨1, some 5, ⟨"p", 9, [1], [], [], [], []⟩⟩],
          [⟨0, some 1, 5, ⟨"p", 9, [1], [], [], [], []⟩⟩], 1⟩ : Snapshot.Store).finalized) :=
  ⟨rfl, C7_snapshot_immutable ⟨[⟨1, some 5, ⟨"p", 9, [1], [], [], [], []⟩⟩], [], 0⟩ 1 [4, 5]
    ⟨[⟨1, some 5, ⟨"p", 9, [1], [], [], [], []⟩⟩],
      [⟨0, some 1, 5, ⟨"p", 9, [1], [], [], [], []⟩⟩], 1⟩ 0
    ⟨1, some 5, ⟨"p", 9, [1], [], [], [], []⟩⟩ rfl rfl⟩

/-- C8: a catalogue row (service, business cycle or functional area)
referenced by a proposal join row is protect-on-delete: the delete fails
with the referenced-row-protected error and removes nothing; once the
referencing join rows are gone the same delete succeeds; and deleting the
parent proposal cascade-deletes exactly its join rows. -/
theorem C8_delete_policies (joins : List DeletePolicy.JoinRow) (catalogue rfps : List Nat)
    (t p : Nat) :
    ((∃ j ∈ joins, j.target = t) →
      DeletePolicy.deleteCatalogueRow joins catalogue t =
        Except.error DeletePolicy.DeleteError.referencedRowProtected) ∧
    DeletePolicy.deleteCatalogueRow
        (joins.filter (fun j => decide (j.target ≠ t))) catalogue t =
      Except.ok (catalogue.filter (fun c => decide (c ≠ t))) ∧
    (∀ j, j ∈ (DeletePolicy.deleteRFP joins rfps p).1 ↔ j ∈ joins ∧ j.generated_rfp ≠ p) := by
  refine ⟨?_, ?_, ?_⟩
  · rintro ⟨j, hj, ht⟩
    have hyes : joins.any (fun j => decide (j.target = t)) = true := by
      rw [List.any_eq_true]
      exact ⟨j, hj, by simp [ht]⟩
    unfold DeletePolicy.deleteCatalogueRow
    rw [if_pos hyes]
  · have hno : ¬ ((joins.filter (fun j => decide (j.target ≠ t))).any
        (fun j => decide (j.target = t)) = true) := by
      simp [List.any_eq_true, List.mem_filter]
    unfold DeletePolicy.deleteCatalogueRow
    rw [if_neg hno]
  · intro j
    unfold DeletePolicy.deleteRFP
    simp [List.mem_filter]

/-- C8, witness: functional area 7 referenced by the join row of
proposal 1 cannot be deleted. -/
theorem C8_witness :
    (∃ j ∈ ([⟨1, 7⟩] : List DeletePolicy.JoinRow), j.target = 7) ∧
    DeletePolicy.deleteCatalogueRow [⟨1, 7⟩] [7] 7 =
      Except.error DeletePolicy.DeleteError.referencedRowProtected :=
  ⟨⟨⟨1, 7⟩, by decide, rfl⟩,
   (C8_delete_policies [⟨1, 7⟩] [7] [1] 7 1).1 ⟨⟨1, 7⟩, by decide, rfl⟩⟩

/-- C10, counterexample: GeneratedRFP declares its creating-user foreign
key with on_delete=CASCADE (src/auth_model.py lines 220-224), so deleting
user 1 deletes the proposal row user 1 created instead of keeping it with
a cleared creator reference: with one such proposal in the store, the
proposal table is empty after the user deletion. -/
theorem C10_counterexample :
    (UserDeletion.deleteUser [] [⟨1, 1, "proposal"⟩] 1).2 = [] := by
  decide

/-- C10, amended: rows carrying the TenantOwnedMixin creator reference
(the ownership-scoped catalogue rows) survive the deletion of their
creator with the creator reference cleared to null and every other field
unchanged, but GeneratedRFP rows reference the user with cascade-on-delete
and are deleted together with the user. -/
theorem C10_amended (catalogue : List UserDeletion.CatalogueRow)
    (rfps : List UserDeletion.RFPRow) (u : Nat) :
    List.Forall₂ (fun r r2 => r2.id = r.id ∧ r2.organization = r.organization ∧
        r2.name = r.name ∧ r2.user = if r.user = some u then none else r.user)
      catalogue (UserDeletion.deleteUser catalogue rfps u).1 ∧
    (∀ x, x ∈ (UserDeletion.deleteUser catalogue rfps u).2 ↔ x ∈ rfps ∧ x.user ≠ u) := by
  constructor
  · unfold UserDeletion.deleteUser
    dsimp only
    rw [List.forall₂_map_right_iff, List.forall₂_same]
    intro r hr
    by_cases hu : r.user = some u
    · simp [hu]
    · simp [hu]
  · intro x
    unfold UserDeletion.deleteUser
    simp [List.mem_filter]
